import Mathlib

/-!
# Orbital Arena server — verified embedding

A shallow embedding of the authoritative game-server logic of
`src/server.js` (the session engine: matchmaking, per-match player state
with movement anti-cheat, combat resolution, team assignment), together
with a spec-modelled capture-site tick, and theorems settling the frozen
claims about the specification.

JavaScript numbers are modelled as `JSNum`: a rational for the finite
case plus the special values `inf`, `ninf`, `nan`, and `undef` (a field
that is absent / `undefined`).  Arithmetic coerces `undef` to `nan`,
comparisons involving `nan` are false, exactly as in JS.  Float rounding
is abstracted: finite values are exact rationals.
-/

/-- A JavaScript number-or-undefined value. -/
inductive JSNum where
  | fin (q : ℚ)
  | inf
  | ninf
  | nan
  | undef
deriving DecidableEq, Repr

namespace JSNum

/-- Whether `typeof v === 'number'` (NaN and the infinities are numbers). -/
def isNumber : JSNum → Bool
  | undef => false
  | _ => true

/-- JS global `isFinite` (after number coercion: `undefined` coerces to NaN). -/
def jsIsFinite : JSNum → Bool
  | fin _ => true
  | _ => false

/-- JS truthiness of a number-or-undefined value: `0`, `NaN`, `undefined` are falsy. -/
def truthy : JSNum → Bool
  | fin q => q ≠ 0
  | inf => true
  | ninf => true
  | nan => false
  | undef => false

/-- Coerce `undefined` to NaN, the first step of every JS arithmetic primitive. -/
def toNum : JSNum → JSNum
  | undef => nan
  | v => v

/-- JS negation. -/
def neg : JSNum → JSNum
  | fin q => fin (-q)
  | inf => ninf
  | ninf => inf
  | _ => nan

/-- JS addition. -/
def add (a b : JSNum) : JSNum :=
  match a.toNum, b.toNum with
  | fin x, fin y => fin (x + y)
  | fin _, inf => inf
  | fin _, ninf => ninf
  | inf, fin _ => inf
  | ninf, fin _ => ninf
  | inf, inf => inf
  | ninf, ninf => ninf
  | _, _ => nan

/-- JS subtraction. -/
def sub (a b : JSNum) : JSNum := add a (neg b)

/-- JS multiplication. -/
def mul (a b : JSNum) : JSNum :=
  match a.toNum, b.toNum with
  | fin x, fin y => fin (x * y)
  | fin x, inf => if x > 0 then inf else if x < 0 then ninf else nan
  | fin x, ninf => if x > 0 then ninf else if x < 0 then inf else nan
  | inf, fin y => if y > 0 then inf else if y < 0 then ninf else nan
  | ninf, fin y => if y > 0 then ninf else if y < 0 then inf else nan
  | inf, inf => inf
  | inf, ninf => ninf
  | ninf, inf => ninf
  | ninf, ninf => inf
  | _, _ => nan

/-- JS `<=` on numbers: false whenever NaN is involved. -/
def jsLe (a b : JSNum) : Bool :=
  match a.toNum, b.toNum with
  | fin x, fin y => x ≤ y
  | fin _, inf => true
  | fin _, ninf => false
  | inf, fin _ => false
  | ninf, fin _ => true
  | inf, inf => true
  | ninf, ninf => true
  | ninf, inf => true
  | inf, ninf => false
  | _, _ => false

/-- JS `>` on numbers: false whenever NaN is involved. -/
def jsGt (a b : JSNum) : Bool :=
  match a.toNum, b.toNum with
  | fin x, fin y => x > y
  | fin _, inf => false
  | fin _, ninf => true
  | inf, fin _ => true
  | ninf, fin _ => false
  | inf, inf => false
  | ninf, ninf => false
  | ninf, inf => false
  | inf, ninf => true
  | _, _ => false

/-- JS `Math.max` of two arguments: NaN if either is NaN. -/
def jsMax (a b : JSNum) : JSNum :=
  match a.toNum, b.toNum with
  | fin x, fin y => fin (max x y)
  | fin _, inf => inf
  | fin x, ninf => fin x
  | inf, fin _ => inf
  | ninf, fin y => fin y
  | inf, _ => inf
  | ninf, ninf => ninf
  | ninf, inf => inf
  | _, _ => nan

/-- JS `Math.min` of two arguments: NaN if either is NaN. -/
def jsMin (a b : JSNum) : JSNum :=
  match a.toNum, b.toNum with
  | fin x, fin y => fin (min x y)
  | fin x, inf => fin x
  | fin _, ninf => ninf
  | inf, fin y => fin y
  | ninf, fin _ => ninf
  | inf, inf => inf
  | ninf, _ => ninf
  | inf, ninf => ninf
  | _, _ => nan

/-- JS `a || b` on a number-or-undefined value: `b` when `a` is falsy. -/
def jsOr (a b : JSNum) : JSNum := if a.truthy then a else b

end JSNum

/-- A position (or rotation) object `{x, y, z}`; absent fields are `undef`. -/
structure Pos where
  x : JSNum
  y : JSNum
  z : JSNum
deriving DecidableEq, Repr

/-- The two teams; `server.js` uses the closed string set `'red' | 'blue'`. -/
inductive Team where
  | red
  | blue
deriving DecidableEq, Repr

/-- The other team. -/
def Team.other : Team → Team
  | .red => .blue
  | .blue => .red

/-- Session status; `server.js` uses the closed string set
`'waiting' | 'playing' | 'ended'`. -/
inductive GStatus where
  | waiting
  | playing
  | ended
deriving DecidableEq, Repr

/-- The per-player record stored in `Game.players` (see `Game.addPlayer`). -/
structure PlayerRecord where
  id : String
  username : String
  team : Team
  health : JSNum
  energy : JSNum
  position : Pos
  rotationv : Pos
  kills : Nat
  assists : Nat
  deaths : Nat
  lastPosition : Option Pos
deriving DecidableEq, Repr

/-! ## Insertion-ordered maps and sets

JS `Map` and `Set` keep insertion order; `Map.set` on a present key
updates in place, `Map.delete` / `Set.delete` remove the entry.  We model
them as association lists / lists with unique keys maintained by the
operations. -/

/-- JS `Map.get`. -/
def mapGet {α : Type} (m : List (String × α)) (k : String) : Option α :=
  match m with
  | [] => none
  | (k0, v0) :: rest => if k0 = k then some v0 else mapGet rest k

/-- JS `Map.set`: update in place if present, else append. -/
def mapSet {α : Type} (m : List (String × α)) (k : String) (v : α) :
    List (String × α) :=
  match m with
  | [] => [(k, v)]
  | (k0, v0) :: rest =>
      if k0 = k then (k, v) :: rest else (k0, v0) :: mapSet rest k v

/-- JS `Map.delete`. -/
def mapDel {α : Type} (m : List (String × α)) (k : String) :
    List (String × α) :=
  match m with
  | [] => []
  | (k0, v0) :: rest => if k0 = k then rest else (k0, v0) :: mapDel rest k

/-- JS `Set.add`: no-op when the element is present. -/
def setAdd (s : List String) (k : String) : List String :=
  if k ∈ s then s else s ++ [k]

/-- JS `Set.delete`. -/
def setDel (s : List String) (k : String) : List String :=
  s.filter (fun x => x ≠ k)

/-! ## Game constants (`GAME_CONFIG`) -/

def PLAYERS_PER_GAME : Nat := 6
def MAX_POSITION_CHANGE_PER_FRAME : ℚ := 50
def DEFAULT_DAMAGE : ℚ := 10
def MAX_HEALTH : ℚ := 100
def MAX_ENERGY : ℚ := 100

/-! ## Free validation helpers -/

/-- Function `isValidPosition`: x and z must be numbers and finite (y is not checked). -/
def isValidPosition (position : Pos) : Bool :=
  position.x.isNumber && position.z.isNumber &&
    position.x.jsIsFinite && position.z.jsIsFinite

/-- Function `clampPosition`: replace non-finite x/z by 0 and falsy y by 0. -/
def clampPosition (position : Pos) : Pos :=
  { x := if position.x.jsIsFinite then position.x else .fin 0
    y := if position.y.truthy then position.y else .fin 0
    z := if position.z.jsIsFinite then position.z else .fin 0 }

/-! ## The `Game` class -/

/-- One game session (`class Game` in `server.js`).  The `teams` object and
`scores` object are flattened into fields; `startTime` is an abstract
timestamp. -/
structure Game where
  id : String
  players : List (String × PlayerRecord)
  teamsRed : List String
  teamsBlue : List String
  scoresRed : Nat
  scoresBlue : Nat
  startTime : Int
  status : GStatus
deriving DecidableEq, Repr

namespace Game

/-- Accessor for `this.teams[team]`. -/
def teamSet (g : Game) : Team → List String
  | .red => g.teamsRed
  | .blue => g.teamsBlue

/-- Setter for `this.teams[team]`, backing `.add(id)` / `.delete(id)`. -/
def withTeamSet (g : Game) : Team → List String → Game
  | .red, s => { g with teamsRed := s }
  | .blue, s => { g with teamsBlue := s }

/-- Accessor for `this.scores[team]`. -/
def score (g : Game) : Team → Nat
  | .red => g.scoresRed
  | .blue => g.scoresBlue

/-- Increment for `this.scores[team]++`. -/
def bumpScore (g : Game) : Team → Game
  | .red => { g with scoresRed := g.scoresRed + 1 }
  | .blue => { g with scoresBlue := g.scoresBlue + 1 }

/-- The `Game` constructor: empty maps, zero scores, status `'waiting'`. -/
def new (id : String) (now : Int) : Game :=
  { id := id
    players := []
    teamsRed := []
    teamsBlue := []
    scoresRed := 0
    scoresBlue := 0
    startTime := now
    status := .waiting }

/-- Method `getRandomSpawnPosition`: team base point plus a random offset; the two
`Math.random()` draws are passed explicitly as `r1 r2 ∈ [0,1)`. -/
def getRandomSpawnPosition (team : Team) (r1 r2 : ℚ) : Pos :=
  let basex : ℚ := match team with | .red => -50 | .blue => 50
  { x := .fin (basex + (r1 - 1/2) * 20)
    y := .fin 0
    z := .fin (0 + (r2 - 1/2) * 20) }

/-- The incoming player object handed to `addPlayer` by the `joinGame`
handler: `{id, username, position, rotation}`.  Its position and rotation
are overwritten by the spread in `addPlayer`. -/
structure JoinPlayer where
  id : String
  username : String
  position : Pos
  rotationv : Pos
deriving DecidableEq, Repr

/-- Method `Game.addPlayer`: assign the team with `red.size <= blue.size ? red :
blue`, add the id to that roster, and insert a fresh `PlayerRecord` with
full health/energy, a random team spawn position, zero rotation and
counters, and no `lastPosition`.  Returns the assigned team. -/
def addPlayer (g : Game) (player : JoinPlayer) (r1 r2 : ℚ) : Team × Game :=
  let team : Team :=
    if (g.teamSet .red).length ≤ (g.teamSet .blue).length then .red else .blue
  let g1 := g.withTeamSet team (setAdd (g.teamSet team) player.id)
  let record : PlayerRecord :=
    { id := player.id
      username := player.username
      team := team
      health := .fin MAX_HEALTH
      energy := .fin MAX_ENERGY
      position := getRandomSpawnPosition team r1 r2
      rotationv := { x := .fin 0, y := .fin 0, z := .fin 0 }
      kills := 0
      assists := 0
      deaths := 0
      lastPosition := none }
  (team, { g1 with players := mapSet g1.players player.id record })

/-- Method `Game.removePlayer`: if the id is known, delete it from its team roster
and from the player map; otherwise a no-op. -/
def removePlayer (g : Game) (playerId : String) : Game :=
  match mapGet g.players playerId with
  | none => g
  | some player =>
      let g1 := g.withTeamSet player.team (setDel (g.teamSet player.team) playerId)
      { g1 with players := mapDel g1.players playerId }

/-- The anti-cheat displacement test of `updatePlayerPosition`:
`Math.sqrt(dx*dx + dz*dz) > MAX_POSITION_CHANGE_PER_FRAME`.  Since the
threshold is nonnegative and `sqrt` is monotone, this equals
`dx*dx + dz*dz > MAX^2` over the reals (NaN compares false either way,
and `sqrt(∞) = ∞`), which is the decidable form used here. -/
def teleportDetected (dx dz : JSNum) : Bool :=
  JSNum.jsGt (JSNum.add (JSNum.mul dx dx) (JSNum.mul dz dz))
    (.fin (MAX_POSITION_CHANGE_PER_FRAME * MAX_POSITION_CHANGE_PER_FRAME))

/-- Method `Game.updatePlayerPosition`: fail on an unknown id or an invalid
position; clamp (never reject) a position whose planar displacement from
`lastPosition` exceeds the per-frame maximum; commit position, rotation
and `lastPosition`, and clamp energy to `[0, MAX_ENERGY]` when it is a
number.  Returns whether the update succeeded, with the updated game. -/
def updatePlayerPosition (g : Game) (playerId : String) (position : Pos)
    (rotationv : Pos) (energy : JSNum) : Bool × Game :=
  match mapGet g.players playerId with
  | none => (false, g)
  | some player =>
      if !isValidPosition position then (false, g)
      else
        let committed : Pos :=
          match player.lastPosition with
          | some lastp =>
              if teleportDetected (JSNum.sub position.x lastp.x)
                  (JSNum.sub position.z lastp.z) then
                clampPosition position
              else position
          | none => position
        let newEnergy : JSNum :=
          if energy.isNumber then
            JSNum.jsMax (.fin 0) (JSNum.jsMin (.fin MAX_ENERGY) energy)
          else player.energy
        let player1 := { player with
          position := committed
          rotationv := rotationv
          lastPosition := some committed
          energy := newEnergy }
        (true, { g with players := mapSet g.players playerId player1 })

/-- Method `Game.handlePlayerHit`: no-op unless attacker and target exist and the
target is alive; clamp the damage to `[0, MAX_HEALTH]`, floor health at 0;
on a kill bump `attacker.kills`, `target.deaths` and the attacker team's
score, and schedule a one-shot respawn of the target (reported in the
middle component).  Returns whether the target was killed. -/
def handlePlayerHit (g : Game) (attackerId targetId : String)
    (damage : JSNum) : Bool × Option String × Game :=
  match mapGet g.players targetId, mapGet g.players attackerId with
  | some target, some attacker =>
      if JSNum.jsLe target.health (.fin 0) then (false, none, g)
      else
        let validDamage := JSNum.jsMin (JSNum.jsMax (.fin 0) damage)
          (.fin MAX_HEALTH)
        let newHealth := JSNum.jsMax (.fin 0) (JSNum.sub target.health validDamage)
        let g1 := { g with
          players := mapSet g.players targetId { target with health := newHealth } }
        if JSNum.jsLe newHealth (.fin 0) then
          let g2 :=
            match mapGet g1.players attackerId with
            | some a => { g1 with
                players := mapSet g1.players attackerId { a with kills := a.kills + 1 } }
            | none => g1
          let g3 :=
            match mapGet g2.players targetId with
            | some t => { g2 with
                players := mapSet g2.players targetId { t with deaths := t.deaths + 1 } }
            | none => g2
          (true, some targetId, g3.bumpScore attacker.team)
        else (false, none, g1)
  | _, _ => (false, none, g)

/-- Method `Game.respawnPlayer` (the `setTimeout` callback): if the player still
exists, restore health/energy, move to a fresh team spawn, zero the
rotation and clear `lastPosition`; otherwise a no-op. -/
def respawnPlayer (g : Game) (playerId : String) (r1 r2 : ℚ) : Game :=
  match mapGet g.players playerId with
  | none => g
  | some player =>
      let player1 := { player with
        health := .fin MAX_HEALTH
        energy := .fin MAX_ENERGY
        position := getRandomSpawnPosition player.team r1 r2
        rotationv := { x := .fin 0, y := .fin 0, z := .fin 0 }
        lastPosition := none }
      { g with players := mapSet g.players playerId player1 }

end Game

/-- The game-state part of the `socket.on('shoot')` handler: look up
attacker and target, drop the event entirely when either is unknown or
when both are on the same team (friendly fire), otherwise clamp
`data.damage || DEFAULT_DAMAGE` to `[0, MAX_HEALTH]` and apply
`handlePlayerHit`.  Returns the broadcast `killed` flag, any scheduled
respawn, and the updated game. -/
def shootHandler (g : Game) (attackerId targetId : String)
    (dataDamage : JSNum) : Bool × Option String × Game :=
  match mapGet g.players attackerId, mapGet g.players targetId with
  | some attacker, some target =>
      if attacker.team = target.team then (false, none, g)
      else
        let damage := JSNum.jsMin
          (JSNum.jsMax (.fin 0) (JSNum.jsOr dataDamage (.fin DEFAULT_DAMAGE)))
          (.fin MAX_HEALTH)
        g.handlePlayerHit attackerId targetId damage
  | _, _ => (false, none, g)

/-- Function `findOrCreateGame`: return the first registered game that is
`'waiting'` and below capacity; otherwise create a fresh `Game` (id drawn
from the clock, passed explicitly), register it, and return it.  The last
component records whether a game was created. -/
def findOrCreateGame (games : List (String × Game)) (freshId : String)
    (now : Int) : Game × List (String × Game) × Bool :=
  match games.find? (fun e =>
      e.2.players.length < PLAYERS_PER_GAME && e.2.status = GStatus.waiting) with
  | some e => (e.2, games, false)
  | none =>
      let newGame := Game.new freshId now
      (newGame, mapSet games freshId newGame, true)

/-! ## Capture sites (spec-modelled)

The repository's server-side capture-point state machine is not among the
provided source files (`src/server.js` carries no capture logic; only the
client-side windmill renderer in `src/client/game.js` consumes its state),
so the tick is modelled from the specification, §4.4. -/

/-- A capture site: fixed planar location, optional owner, capture
progress in `[0,1]`, and the team currently accumulating progress. -/
structure CaptureSite where
  id : String
  siteX : ℚ
  siteZ : ℚ
  ownerTeam : Option Team
  progress : ℚ
  contestingTeam : Option Team
deriving DecidableEq, Repr

/-- Planar (x,z) occupancy test against the capture radius, compared in
squared form (`dist ≤ r` iff `dist² ≤ r²` for `r ≥ 0`; NaN fails both). -/
def withinCaptureRadius (p : Pos) (site : CaptureSite) (radius : ℚ) : Bool :=
  let dx := JSNum.sub p.x (.fin site.siteX)
  let dz := JSNum.sub p.z (.fin site.siteZ)
  JSNum.jsLe (JSNum.add (JSNum.mul dx dx) (JSNum.mul dz dz))
    (.fin (radius * radius))

/-- Number of players of `team` inside the capture radius of `site`. -/
def occupantCount (g : Game) (site : CaptureSite) (radius : ℚ) (team : Team) :
    Nat :=
  (g.players.filter (fun e =>
    e.2.team = team && withinCaptureRadius e.2.position site radius)).length

/-- Modelled from the spec: one capture tick for one site (the server-side
CaptureSite state machine of §4.4 is missing from the provided sources).
Steps, given the per-team occupant counts: (2) both teams present →
contested, the tick is skipped for this site; (3) otherwise the one team
present, if any, is capturing; (4) nobody present → decay the progress of
an unowned site toward 0, clearing `contestingTeam` at 0; (5) the owner
capturing its own site → no-op; (6) a different team than `contestingTeam`
capturing → reset progress to 0 and switch `contestingTeam`; (7) then add
`rate × elapsed` to progress, clamped at 1, transferring ownership when
progress reaches 1. -/
def captureTickSite (site : CaptureSite) (redCount blueCount : Nat)
    (elapsed rate decay : ℚ) : CaptureSite :=
  if 1 ≤ redCount ∧ 1 ≤ blueCount then site
  else
    let capturingTeam : Option Team :=
      if 1 ≤ redCount then some .red
      else if 1 ≤ blueCount then some .blue
      else none
    match capturingTeam with
    | none =>
        if site.ownerTeam = none ∧ 0 < site.progress then
          let p := max 0 (site.progress - decay * elapsed)
          { site with
            progress := p
            contestingTeam := if p = 0 then none else site.contestingTeam }
        else site
    | some team =>
        if site.ownerTeam = some team then site
        else
          let site1 :=
            if site.contestingTeam ≠ some team then
              { site with progress := 0, contestingTeam := some team }
            else site
          let p := min 1 (site1.progress + rate * elapsed)
          { site1 with
            progress := p
            ownerTeam := if p = 1 then some team else site1.ownerTeam }

/-- Modelled from the spec: a full capture tick of one site inside a game,
counting each team's occupants by planar distance, then stepping the site. -/
def captureTick (g : Game) (site : CaptureSite) (radius elapsed rate decay : ℚ) :
    CaptureSite :=
  captureTickSite site (occupantCount g site radius .red)
    (occupantCount g site radius .blue) elapsed rate decay

/-! ## Concrete sample data for witnesses -/

def zeroPos : Pos := ⟨.fin 0, .fin 0, .fin 0⟩

/-- A joining player object as built by the `joinGame` handler. -/
def sampleJoin (i : String) : Game.JoinPlayer :=
  { id := i, username := i, position := zeroPos, rotationv := zeroPos }

/-- The record `addPlayer` inserts for `sampleJoin i` on `team` when both
random draws are `1/2` (zero spawn offset). -/
def sampleRecord (i : String) (team : Team) : PlayerRecord :=
  { id := i
    username := i
    team := team
    health := .fin MAX_HEALTH
    energy := .fin MAX_ENERGY
    position := Game.getRandomSpawnPosition team (1/2) (1/2)
    rotationv := zeroPos
    kills := 0
    assists := 0
    deaths := 0
    lastPosition := none }

/-- A four-player session reached by `addPlayer` alone: `a`, `c` on red,
`b`, `d` on blue. -/
def sampleGame : Game :=
  let g1 := ((Game.new "g" 0).addPlayer (sampleJoin "a") (1/2) (1/2)).2
  let g2 := (g1.addPlayer (sampleJoin "b") (1/2) (1/2)).2
  let g3 := (g2.addPlayer (sampleJoin "c") (1/2) (1/2)).2
  (g3.addPlayer (sampleJoin "d") (1/2) (1/2)).2

/-- The state of `sampleGame` after one accepted position update of `a`, giving `a` a
`lastPosition` baseline at the origin. -/
def sampleGameMoved : Game :=
  (sampleGame.updatePlayerPosition "a" ⟨.fin 0, .fin 1, .fin 0⟩ zeroPos .undef).2

/-- A neutral capture site at the origin, half-captured by red. -/
def sampleSite : CaptureSite :=
  { id := "w", siteX := 0, siteZ := 0, ownerTeam := none, progress := 1/2,
    contestingTeam := some .red }

/-- The record held for `a` in `sampleGameMoved`. -/
def sampleMovedRecord : PlayerRecord :=
  { sampleRecord "a" .red with
    position := ⟨.fin 0, .fin 1, .fin 0⟩
    rotationv := zeroPos
    lastPosition := some ⟨.fin 0, .fin 1, .fin 0⟩ }

/-- A session with one red and one blue player standing on the sample
site. -/
def siteGame : Game :=
  { id := "g"
    players :=
      [("r1", { sampleRecord "r1" .red with position := zeroPos }),
       ("b1", { sampleRecord "b1" .blue with position := zeroPos })]
    teamsRed := ["r1"]
    teamsBlue := ["b1"]
    scoresRed := 0
    scoresBlue := 0
    startTime := 0
    status := .waiting }

/-- Apply a sequence of `addPlayer` operations, each with its two random
draws. -/
def addPlayers (g : Game) (inputs : List (Game.JoinPlayer × ℚ × ℚ)) : Game :=
  inputs.foldl (fun g0 i => (g0.addPlayer i.1 i.2.1 i.2.2).2) g

/-- The red and blue roster sizes differ by at most one. -/
def balancedTeams (g : Game) : Prop :=
  g.teamsRed.length ≤ g.teamsBlue.length + 1 ∧
  g.teamsBlue.length ≤ g.teamsRed.length + 1

/-- The claim-side damage formula: `requestedDamage` clamped to
`[0, MAX_HEALTH]`. -/
def clampedDamage (q : ℚ) : ℚ := min (max 0 q) MAX_HEALTH

/-- The claim-side post-hit health: clamped damage subtracted from the
target's health, floored at 0. -/
def hitResultHealth (t : PlayerRecord) (q : ℚ) : JSNum :=
  JSNum.jsMax (.fin 0) (JSNum.sub t.health (.fin (clampedDamage q)))

/-! ## Map/set lemmas -/

theorem mapGet_mapSet_self {α : Type} (m : List (String × α)) (k : String)
    (v : α) : mapGet (mapSet m k v) k = some v := by
  induction m with
  | nil => simp [mapGet, mapSet]
  | cons e rest ih =>
      obtain ⟨k0, v0⟩ := e
      by_cases h : k0 = k
      · simp [mapSet, h, mapGet]
      · simp [mapSet, h, mapGet, ih]

theorem mapGet_mapSet_ne {α : Type} (m : List (String × α)) (k k' : String)
    (v : α) (h : k' ≠ k) : mapGet (mapSet m k v) k' = mapGet m k' := by
  induction m with
  | nil => simp [mapGet, mapSet, Ne.symm h]
  | cons e rest ih =>
      obtain ⟨k0, v0⟩ := e
      by_cases hk : k0 = k
      · subst hk
        simp [mapSet, mapGet, Ne.symm h]
      · by_cases hk' : k0 = k'
        · subst hk'
          simp [mapSet, hk, mapGet]
        · simp [mapSet, hk, mapGet, hk', ih]

theorem setAdd_length (s : List String) (k : String) :
    (setAdd s k).length = if k ∈ s then s.length else s.length + 1 := by
  by_cases h : k ∈ s <;> simp [setAdd, h]

/-! ## JSNum helper lemmas -/

theorem JSNum.jsLe_zero_eq_false_of_jsGt (a : JSNum)
    (h : JSNum.jsGt a (.fin 0) = true) : JSNum.jsLe a (.fin 0) = false := by
  cases a <;> simp_all [JSNum.jsGt, JSNum.jsLe, JSNum.toNum]

/-! ## Claim theorems -/

/-- C1: for every pair of player ids present in the same session whose
records have the same team, the hit-handling path (the `'shoot'` handler,
which wraps `Game.handlePlayerHit` behind the friendly-fire guard) is a
no-op returning `false`: no player's health, kills or deaths and no team
score changes. -/
theorem shoot_friendly_fire_noop (g : Game) (attackerId targetId : String)
    (a t : PlayerRecord) (d : JSNum)
    (ha : mapGet g.players attackerId = some a)
    (ht : mapGet g.players targetId = some t)
    (hteam : a.team = t.team) :
    shootHandler g attackerId targetId d = (false, none, g) := by
  unfold shootHandler
  rw [ha, ht]
  simp [hteam]

/-- Witness for C1: `a` and `c` are both on red in `sampleGame`; a
150-damage shot between them changes nothing. -/
theorem shoot_friendly_fire_noop_witness :
    shootHandler sampleGame "a" "c" (.fin 150) = (false, none, sampleGame) :=
  shoot_friendly_fire_noop sampleGame "a" "c" (sampleRecord "a" .red)
    (sampleRecord "c" .red) (.fin 150) rfl rfl rfl

/-- C9: `addPlayer` assigns the joining player to the team whose roster
size is ≤ the other team's, and a tie resolves to red. -/
theorem addPlayer_smaller_team (g : Game) (player : Game.JoinPlayer)
    (r1 r2 : ℚ) :
    (g.teamSet (g.addPlayer player r1 r2).1).length ≤
      (g.teamSet ((g.addPlayer player r1 r2).1).other).length ∧
    (g.teamsRed.length = g.teamsBlue.length →
      (g.addPlayer player r1 r2).1 = .red) := by
  by_cases h : (g.teamSet .red).length ≤ (g.teamSet .blue).length
  · refine ⟨?_, fun _ => ?_⟩
    · simp [Game.addPlayer, h, Team.other]
    · simp [Game.addPlayer, h]
  · refine ⟨?_, fun heq => ?_⟩
    · simp only [Game.addPlayer, if_neg h, Team.other]
      simp only [Game.teamSet] at h ⊢
      omega
    · simp only [Game.teamSet] at h
      omega

/-- Witness for C9 at `sampleGame` (rosters of size 2 and 2): the tie sends
the fifth player to red, the smaller-or-equal roster. -/
theorem addPlayer_smaller_team_witness :
    (sampleGame.teamSet (sampleGame.addPlayer (sampleJoin "e") (1/2) (1/2)).1).length ≤
      (sampleGame.teamSet ((sampleGame.addPlayer (sampleJoin "e") (1/2) (1/2)).1).other).length ∧
    (sampleGame.teamsRed.length = sampleGame.teamsBlue.length →
      (sampleGame.addPlayer (sampleJoin "e") (1/2) (1/2)).1 = .red) :=
  addPlayer_smaller_team sampleGame (sampleJoin "e") (1/2) (1/2)

/-- C5: for a known player id, `updatePlayerPosition` with a position whose
x or z is not a finite number returns `false` and leaves the entire session
state (hence the player's record) unchanged. -/
theorem updatePlayerPosition_nonfinite_noop (g : Game) (playerId : String)
    (p : PlayerRecord) (position rotationv : Pos) (energy : JSNum)
    (hp : mapGet g.players playerId = some p)
    (h : position.x.jsIsFinite = false ∨ position.z.jsIsFinite = false) :
    g.updatePlayerPosition playerId position rotationv energy = (false, g) := by
  have hv : isValidPosition position = false := by
    rcases h with h | h <;> simp [isValidPosition, h]
  unfold Game.updatePlayerPosition
  rw [hp]
  simp [hv]

/-- Witness for C5: a NaN x-coordinate for the known player `a` is rejected
with no state change. -/
theorem updatePlayerPosition_nonfinite_noop_witness :
    sampleGame.updatePlayerPosition "a" ⟨.nan, .fin 0, .fin 0⟩ zeroPos .undef =
      (false, sampleGame) :=
  updatePlayerPosition_nonfinite_noop sampleGame "a" (sampleRecord "a" .red)
    ⟨.nan, .fin 0, .fin 0⟩ zeroPos .undef rfl (Or.inl rfl)

/-- C7: every session operation invoked with an unknown player id —
`updatePlayerPosition`, `handlePlayerHit` (unknown target or unknown
attacker), `respawnPlayer`, `removePlayer` — is a no-op on session state
returning its failure indicator; all are total Lean functions, so none can
throw. -/
theorem unknown_id_operations_noop (g : Game) (pid otherId : String)
    (position rotationv : Pos) (energy d : JSNum) (r1 r2 : ℚ)
    (h : mapGet g.players pid = none) :
    g.updatePlayerPosition pid position rotationv energy = (false, g) ∧
    g.handlePlayerHit otherId pid d = (false, none, g) ∧
    g.handlePlayerHit pid otherId d = (false, none, g) ∧
    g.respawnPlayer pid r1 r2 = g ∧
    g.removePlayer pid = g := by
  refine ⟨?_, ?_, ?_, ?_, ?_⟩
  · simp [Game.updatePlayerPosition, h]
  · simp [Game.handlePlayerHit, h]
  · cases ho : mapGet g.players otherId <;>
      simp [Game.handlePlayerHit, h, ho]
  · simp [Game.respawnPlayer, h]
  · simp [Game.removePlayer, h]

/-- Witness for C7: the id `x` is unknown in the fresh session. -/
theorem unknown_id_operations_noop_witness :
    (Game.new "g" 0).updatePlayerPosition "x" zeroPos zeroPos (.fin 0) =
      (false, Game.new "g" 0) ∧
    (Game.new "g" 0).handlePlayerHit "a" "x" (.fin 10) =
      (false, none, Game.new "g" 0) ∧
    (Game.new "g" 0).handlePlayerHit "x" "a" (.fin 10) =
      (false, none, Game.new "g" 0) ∧
    (Game.new "g" 0).respawnPlayer "x" 0 0 = Game.new "g" 0 ∧
    (Game.new "g" 0).removePlayer "x" = Game.new "g" 0 :=
  unknown_id_operations_noop (Game.new "g" 0) "x" "a" zeroPos zeroPos
    (.fin 0) (.fin 10) 0 0 rfl

theorem JSNum.isNumber_of_jsIsFinite (a : JSNum) (h : a.jsIsFinite = true) :
    a.isNumber = true := by
  cases a <;> simp_all [JSNum.jsIsFinite, JSNum.isNumber]

theorem clampPosition_x_of_finite (position : Pos)
    (h : position.x.jsIsFinite = true) :
    (clampPosition position).x = position.x := by
  simp [clampPosition, h]

theorem clampPosition_z_of_finite (position : Pos)
    (h : position.z.jsIsFinite = true) :
    (clampPosition position).z = position.z := by
  simp [clampPosition, h]

/-- C3: for a player with a `lastPosition` baseline, an update whose x and
z are finite but whose planar displacement exceeds the per-frame maximum
is accepted — `updatePlayerPosition` returns `true` — with the incoming
position committed through `clampPosition`, whose x and z outputs are
finite fallback values; the update is not rejected. -/
theorem updatePlayerPosition_teleport_clamped (g : Game) (playerId : String)
    (p : PlayerRecord) (lastp : Pos) (position rotationv : Pos)
    (energy : JSNum)
    (hp : mapGet g.players playerId = some p)
    (hl : p.lastPosition = some lastp)
    (hx : position.x.jsIsFinite = true) (hz : position.z.jsIsFinite = true)
    (hd : Game.teleportDetected (JSNum.sub position.x lastp.x)
        (JSNum.sub position.z lastp.z) = true) :
    (g.updatePlayerPosition playerId position rotationv energy).1 = true ∧
    (mapGet (g.updatePlayerPosition playerId position rotationv energy).2.players
        playerId).map PlayerRecord.position = some (clampPosition position) ∧
    (clampPosition position).x.jsIsFinite = true ∧
    (clampPosition position).z.jsIsFinite = true := by
  have hv : isValidPosition position = true := by
    simp [isValidPosition, hx, hz, JSNum.isNumber_of_jsIsFinite _ hx,
      JSNum.isNumber_of_jsIsFinite _ hz]
  have hcx : (clampPosition position).x.jsIsFinite = true := by
    simp [clampPosition, hx]
  have hcz : (clampPosition position).z.jsIsFinite = true := by
    simp [clampPosition, hx, hz]
  refine ⟨?_, ?_, hcx, hcz⟩ <;>
    simp [Game.updatePlayerPosition, hp, hv, hl, hd, mapGet_mapSet_self]


/-- Witness for C3: `a` sits at the origin baseline and reports x = 100, a
displacement of 100 > 50; the update is accepted and committed through
`clampPosition`. -/
theorem updatePlayerPosition_teleport_clamped_witness :
    (sampleGameMoved.updatePlayerPosition "a" ⟨.fin 100, .fin 0, .fin 0⟩
        zeroPos .undef).1 = true ∧
    (mapGet (sampleGameMoved.updatePlayerPosition "a" ⟨.fin 100, .fin 0, .fin 0⟩
        zeroPos .undef).2.players "a").map PlayerRecord.position =
      some (clampPosition ⟨.fin 100, .fin 0, .fin 0⟩) ∧
    (clampPosition ⟨.fin 100, .fin 0, .fin 0⟩).x.jsIsFinite = true ∧
    (clampPosition ⟨.fin 100, .fin 0, .fin 0⟩).z.jsIsFinite = true :=
  updatePlayerPosition_teleport_clamped sampleGameMoved "a" sampleMovedRecord
    ⟨.fin 0, .fin 1, .fin 0⟩ ⟨.fin 100, .fin 0, .fin 0⟩ zeroPos .undef
    rfl rfl rfl rfl
    (by norm_num [Game.teleportDetected, JSNum.sub, JSNum.neg, JSNum.add,
      JSNum.mul, JSNum.toNum, JSNum.jsGt, MAX_POSITION_CHANGE_PER_FRAME])

/-- C10: whenever `updatePlayerPosition` succeeds, the committed x and z
coordinates equal the incoming ones exactly — `clampPosition` is the
identity on coordinates that already passed the finiteness check, so even
a flagged teleport is committed unchanged. -/
theorem updatePlayerPosition_success_exact_xz (g : Game) (playerId : String)
    (position rotationv : Pos) (energy : JSNum)
    (h : (g.updatePlayerPosition playerId position rotationv energy).1 = true) :
    ∃ p1, mapGet (g.updatePlayerPosition playerId position rotationv
        energy).2.players playerId = some p1 ∧
      p1.position.x = position.x ∧ p1.position.z = position.z := by
  cases hp : mapGet g.players playerId with
  | none =>
      rw [Game.updatePlayerPosition, hp] at h
      simp at h
  | some p =>
      by_cases hv : isValidPosition position = true
      · have hx : position.x.jsIsFinite = true := by
          simp only [isValidPosition, Bool.and_eq_true] at hv
          exact hv.1.2
        have hz : position.z.jsIsFinite = true := by
          simp only [isValidPosition, Bool.and_eq_true] at hv
          exact hv.2
        simp only [Game.updatePlayerPosition, hp, hv, Bool.not_true,
          Bool.false_eq_true, if_false]
        refine ⟨_, mapGet_mapSet_self _ _ _, ?_, ?_⟩
        · cases hlp : p.lastPosition with
          | none => simp [hlp]
          | some lastp =>
              by_cases ht : Game.teleportDetected
                  (JSNum.sub position.x lastp.x)
                  (JSNum.sub position.z lastp.z) = true
              · simp [hlp, ht, clampPosition_x_of_finite _ hx]
              · simp [hlp, ht]
        · cases hlp : p.lastPosition with
          | none => simp [hlp]
          | some lastp =>
              by_cases ht : Game.teleportDetected
                  (JSNum.sub position.x lastp.x)
                  (JSNum.sub position.z lastp.z) = true
              · simp [hlp, ht, clampPosition_z_of_finite _ hz]
              · simp [hlp, ht]
      · rw [Game.updatePlayerPosition, hp] at h
        simp [hv] at h

/-- Witness for C10: the accepted teleport of the C3 scenario commits
x = 100 and z = 0 exactly as sent. -/
theorem updatePlayerPosition_success_exact_xz_witness :
    ∃ p1, mapGet (sampleGameMoved.updatePlayerPosition "a"
        ⟨.fin 100, .fin 0, .fin 0⟩ zeroPos .undef).2.players "a" = some p1 ∧
      p1.position.x = JSNum.fin 100 ∧ p1.position.z = JSNum.fin 0 :=
  updatePlayerPosition_success_exact_xz sampleGameMoved "a"
    ⟨.fin 100, .fin 0, .fin 0⟩ zeroPos .undef rfl

/-- C2 (spec-modelled): on a capture tick, a site whose capture radius
contains at least one player of each team (planar distance) is contested:
its progress, ownerTeam and contestingTeam are all unchanged by the tick. -/
theorem captureTick_contested_unchanged (g : Game) (site : CaptureSite)
    (radius elapsed rate decay : ℚ)
    (hr : 1 ≤ occupantCount g site radius .red)
    (hb : 1 ≤ occupantCount g site radius .blue) :
    (captureTick g site radius elapsed rate decay).progress = site.progress ∧
    (captureTick g site radius elapsed rate decay).ownerTeam = site.ownerTeam ∧
    (captureTick g site radius elapsed rate decay).contestingTeam =
      site.contestingTeam := by
  unfold captureTick captureTickSite
  simp [hr, hb]


/-- Witness for C2: with one player of each team at the site, the tick
leaves the sample site untouched. -/
theorem captureTick_contested_unchanged_witness :
    (captureTick siteGame sampleSite 10 (1/2) (1/5) (1/10)).progress =
      sampleSite.progress ∧
    (captureTick siteGame sampleSite 10 (1/2) (1/5) (1/10)).ownerTeam =
      sampleSite.ownerTeam ∧
    (captureTick siteGame sampleSite 10 (1/2) (1/5) (1/10)).contestingTeam =
      sampleSite.contestingTeam :=
  captureTick_contested_unchanged siteGame sampleSite 10 (1/2) (1/5) (1/10)
    (by
      norm_num [occupantCount, withinCaptureRadius, JSNum.sub, JSNum.neg,
        JSNum.add, JSNum.mul, JSNum.toNum, JSNum.jsLe, siteGame, sampleSite,
        zeroPos, sampleRecord, List.filter])
    (by
      norm_num [occupantCount, withinCaptureRadius, JSNum.sub, JSNum.neg,
        JSNum.add, JSNum.mul, JSNum.toNum, JSNum.jsLe, siteGame, sampleSite,
        zeroPos, sampleRecord, List.filter]
      all_goals decide)

/-- C8: `findOrCreateGame` always returns a session that is `'waiting'`
and strictly below capacity, and it creates and registers a fresh session
exactly when no registered session satisfies both conditions. -/
theorem findOrCreateGame_waiting_below_capacity
    (games : List (String × Game)) (freshId : String) (now : Int) :
    (findOrCreateGame games freshId now).1.status = GStatus.waiting ∧
    (findOrCreateGame games freshId now).1.players.length < PLAYERS_PER_GAME ∧
    ((findOrCreateGame games freshId now).2.2 = true ↔
      ∀ e ∈ games, ¬(e.2.players.length < PLAYERS_PER_GAME ∧
        e.2.status = GStatus.waiting)) ∧
    ((findOrCreateGame games freshId now).2.2 = true →
      (findOrCreateGame games freshId now).2.1 =
        mapSet games freshId (findOrCreateGame games freshId now).1) ∧
    ((findOrCreateGame games freshId now).2.2 = false →
      (findOrCreateGame games freshId now).2.1 = games) := by
  unfold findOrCreateGame
  cases hf : games.find? (fun e =>
      e.2.players.length < PLAYERS_PER_GAME &&
        e.2.status = GStatus.waiting) with
  | none =>
      have hall := List.find?_eq_none.mp hf
      simp only [Bool.and_eq_true, decide_eq_true_eq, not_and] at hall
      simp only [hf]
      simp [Game.new, PLAYERS_PER_GAME]
      exact fun a b hab h1 h2 => hall (a, b) hab h1 h2
  | some e =>
      have hpe := List.find?_some hf
      have hmem := List.mem_of_find?_eq_some hf
      simp only [Bool.and_eq_true, decide_eq_true_eq] at hpe
      simp only [hf]
      simp [hpe.1, hpe.2]
      exact ⟨e.1, e.2, hmem, hpe.1, hpe.2⟩

/-- Witness for C8: on an empty registry a fresh waiting session is
created and registered. -/
theorem findOrCreateGame_waiting_below_capacity_witness :
    (findOrCreateGame [] "fresh" 0).1.status = GStatus.waiting ∧
    (findOrCreateGame [] "fresh" 0).1.players.length < PLAYERS_PER_GAME ∧
    ((findOrCreateGame [] "fresh" 0).2.2 = true ↔
      ∀ e ∈ ([] : List (String × Game)),
        ¬(e.2.players.length < PLAYERS_PER_GAME ∧
          e.2.status = GStatus.waiting)) ∧
    ((findOrCreateGame [] "fresh" 0).2.2 = true →
      (findOrCreateGame [] "fresh" 0).2.1 =
        mapSet [] "fresh" (findOrCreateGame [] "fresh" 0).1) ∧
    ((findOrCreateGame [] "fresh" 0).2.2 = false →
      (findOrCreateGame [] "fresh" 0).2.1 = []) :=
  findOrCreateGame_waiting_below_capacity [] "fresh" 0


/-- C6 counterexample: `sampleGame` (2 red, 2 blue, reached by `addPlayer`
alone) followed by `removePlayer` of both blue players is reachable by
addPlayer and removePlayer operations, yet leaves rosters of sizes 2 and
0: the team sizes differ by more than 1. -/
theorem team_balance_broken_by_removals :
    ((sampleGame.removePlayer "b").removePlayer "d").teamsRed.length = 2 ∧
    ((sampleGame.removePlayer "b").removePlayer "d").teamsBlue.length = 0 ∧
    ¬ balancedTeams ((sampleGame.removePlayer "b").removePlayer "d") := by
  refine ⟨by decide, by decide, ?_⟩
  simp only [balancedTeams]
  decide

theorem addPlayer_preserves_balance (g : Game) (player : Game.JoinPlayer)
    (r1 r2 : ℚ) (h : balancedTeams g) :
    balancedTeams (g.addPlayer player r1 r2).2 := by
  obtain ⟨h1, h2⟩ := h
  unfold Game.addPlayer balancedTeams
  by_cases hc : g.teamsRed.length ≤ g.teamsBlue.length
  · simp only [Game.teamSet, if_pos hc, Game.withTeamSet]
    rw [setAdd_length]
    by_cases hm : player.id ∈ g.teamsRed <;> simp [hm] <;> omega
  · simp only [Game.teamSet, if_neg hc, Game.withTeamSet]
    rw [setAdd_length]
    by_cases hm : player.id ∈ g.teamsBlue <;> simp [hm] <;> omega

theorem addPlayers_balanced (inputs : List (Game.JoinPlayer × ℚ × ℚ))
    (g : Game) (h : balancedTeams g) : balancedTeams (addPlayers g inputs) := by
  induction inputs generalizing g with
  | nil => simpa [addPlayers] using h
  | cons i rest ih =>
      rw [addPlayers, List.foldl_cons]
      exact ih _ (addPlayer_preserves_balance g i.1 i.2.1 i.2.2 h)

/-- C6 amended: in every session state reachable from a fresh session by
`addPlayer` operations alone, the red and blue roster sizes differ by at
most 1; `removePlayer` is excluded since removals can break the bound
(see the counterexample). -/
theorem addPlayers_from_new_balanced (id : String) (now : Int)
    (inputs : List (Game.JoinPlayer × ℚ × ℚ)) :
    balancedTeams (addPlayers (Game.new id now) inputs) :=
  addPlayers_balanced inputs (Game.new id now)
    (by simp [balancedTeams, Game.new])


theorem score_set_players (g : Game) (ps : List (String × PlayerRecord))
    (tm : Team) : ({ g with players := ps } : Game).score tm = g.score tm := by
  cases tm <;> rfl

theorem score_bumpScore_self (g : Game) (tm : Team) :
    (g.bumpScore tm).score tm = g.score tm + 1 := by
  cases tm <;> rfl

theorem score_bumpScore_other (g : Game) (tm : Team) :
    (g.bumpScore tm).score tm.other = g.score tm.other := by
  cases tm <;> rfl

theorem bumpScore_players (g : Game) (tm : Team) :
    (g.bumpScore tm).players = g.players := by
  cases tm <;> rfl

/-- C4: for a cross-team hit where attacker and target exist and the
target is alive, `handlePlayerHit` subtracts `min(max(0, damage), 100)`
from the target's health floored at 0; exactly when the resulting health
is ≤ 0 it increments attacker kills, target deaths and the attacker
team's score by 1, schedules a one-shot respawn of the target, and
returns `true`; otherwise it returns `false`. -/
theorem handlePlayerHit_cross_team (g : Game) (attackerId targetId : String)
    (a t : PlayerRecord) (q : ℚ)
    (ha : mapGet g.players attackerId = some a)
    (ht : mapGet g.players targetId = some t)
    (hteam : a.team ≠ t.team)
    (halive : JSNum.jsGt t.health (.fin 0) = true) :
    (g.handlePlayerHit attackerId targetId (.fin q)).1 =
      JSNum.jsLe (hitResultHealth t q) (.fin 0) ∧
    (g.handlePlayerHit attackerId targetId (.fin q)).2.1 =
      (if JSNum.jsLe (hitResultHealth t q) (.fin 0) then some targetId
       else none) ∧
    mapGet (g.handlePlayerHit attackerId targetId (.fin q)).2.2.players
        targetId =
      some ({ t with health := hitResultHealth t q,
                     deaths := t.deaths +
                       (if JSNum.jsLe (hitResultHealth t q) (.fin 0)
                        then 1 else 0) }) ∧
    mapGet (g.handlePlayerHit attackerId targetId (.fin q)).2.2.players
        attackerId =
      some ({ a with kills := a.kills +
                       (if JSNum.jsLe (hitResultHealth t q) (.fin 0)
                        then 1 else 0) }) ∧
    (g.handlePlayerHit attackerId targetId (.fin q)).2.2.score a.team =
      g.score a.team +
        (if JSNum.jsLe (hitResultHealth t q) (.fin 0) then 1 else 0) ∧
    (g.handlePlayerHit attackerId targetId (.fin q)).2.2.score a.team.other =
      g.score a.team.other := by
  have hne : attackerId ≠ targetId := by
    intro he
    rw [he, ht] at ha
    injection ha with hat
    exact hteam (hat ▸ rfl)
  have hne2 : targetId ≠ attackerId := Ne.symm hne
  have hguard : JSNum.jsLe t.health (.fin 0) = false :=
    JSNum.jsLe_zero_eq_false_of_jsGt _ halive
  have hdmg : JSNum.jsMin (JSNum.jsMax (.fin 0) (.fin q)) (.fin MAX_HEALTH) =
      JSNum.fin (clampedDamage q) := rfl
  simp only [Game.handlePlayerHit, ht, ha]
  simp only [hguard, Bool.false_eq_true, if_false, hdmg, hitResultHealth]
  by_cases hk : JSNum.jsLe
      (JSNum.jsMax (.fin 0) (JSNum.sub t.health (.fin (clampedDamage q))))
      (.fin 0) = true
  · simp [hk, mapGet_mapSet_ne _ _ _ _ hne, mapGet_mapSet_ne _ _ _ _ hne2,
      mapGet_mapSet_self, ha, bumpScore_players, score_bumpScore_self,
      score_bumpScore_other, score_set_players]
  · rw [Bool.not_eq_true] at hk
    simp [hk, mapGet_mapSet_ne _ _ _ _ hne, mapGet_mapSet_self, ha,
      score_set_players]

/-- Witness for C4: red `a` hits blue `b` (health 100) for 150 requested
damage; the applied damage is clamped to 100, the target dies, and all
kill-side effects occur. -/
theorem handlePlayerHit_cross_team_witness :
    (sampleGame.handlePlayerHit "a" "b" (.fin 150)).1 =
      JSNum.jsLe (hitResultHealth (sampleRecord "b" .blue) 150) (.fin 0) ∧
    (sampleGame.handlePlayerHit "a" "b" (.fin 150)).2.1 =
      (if JSNum.jsLe (hitResultHealth (sampleRecord "b" .blue) 150) (.fin 0)
       then some "b" else none) ∧
    mapGet (sampleGame.handlePlayerHit "a" "b" (.fin 150)).2.2.players "b" =
      some ({ sampleRecord "b" .blue with
              health := hitResultHealth (sampleRecord "b" .blue) 150,
              deaths := (sampleRecord "b" .blue).deaths +
                (if JSNum.jsLe (hitResultHealth (sampleRecord "b" .blue) 150)
                    (.fin 0)
                 then 1 else 0) }) ∧
    mapGet (sampleGame.handlePlayerHit "a" "b" (.fin 150)).2.2.players "a" =
      some ({ sampleRecord "a" .red with
              kills := (sampleRecord "a" .red).kills +
                (if JSNum.jsLe (hitResultHealth (sampleRecord "b" .blue) 150)
                    (.fin 0)
                 then 1 else 0) }) ∧
    (sampleGame.handlePlayerHit "a" "b" (.fin 150)).2.2.score
        (sampleRecord "a" .red).team =
      sampleGame.score (sampleRecord "a" .red).team +
        (if JSNum.jsLe (hitResultHealth (sampleRecord "b" .blue) 150) (.fin 0)
         then 1 else 0) ∧
    (sampleGame.handlePlayerHit "a" "b" (.fin 150)).2.2.score
        (sampleRecord "a" .red).team.other =
      sampleGame.score (sampleRecord "a" .red).team.other :=
  handlePlayerHit_cross_team sampleGame "a" "b" (sampleRecord "a" .red)
    (sampleRecord "b" .blue) 150 rfl rfl (by decide)
    (by norm_num [sampleRecord, JSNum.jsGt, JSNum.toNum, MAX_HEALTH])
